import Mathlib

/-!
Verification of the TinkyWiki-MCP fetch-orchestration core.

Shallow embedding of the modules `dedup.py`, `fallback.py`, `rate_limit.py`
and `session_pool.py` of the TinkyWiki-MCP repository, together with proofs
of the behavioural properties claimed for them.  Exceptions are modelled by
`Except` with a `Nat` identifying the raised object; wall-clock instants are
rationals; the mutable module-level registries become explicit state values.
-/

namespace TinkyWiki

/-! ## dedup.py — in-flight request deduplication (singleflight)

`dedup_fetch(key, fetch_fn)` serialises registry check-in under a lock:
the first caller for a key creates the `_InflightEntry` and becomes the
owner, every later concurrent caller finds the entry and becomes a waiter.
The owner runs `fetch_fn`, records the value in `entry.result` or the raised
exception in `entry.error`, sets `entry.event`, and pops the registry key.
A waiter blocks on `entry.event.wait(timeout=120)` and then executes the
shared epilogue: raise `entry.error` if set, else return `entry.result`.
-/

/-- Behaviour of a zero-argument `fetch_fn`: either returns a value or raises
the exception object identified by a `Nat`. -/
inductive FetchOutcome (α : Type) where
  | ok : α → FetchOutcome α
  | raise : Nat → FetchOutcome α
deriving DecidableEq, Repr

/-- The `_InflightEntry` record of `dedup.py`: completion event flag, the
recorded result (initially `None`) and the recorded error (initially `None`). -/
structure InflightEntry (α : Type) where
  eventSet : Bool
  result : Option α
  error : Option Nat
deriving DecidableEq, Repr

/-- `_InflightEntry.__init__`: event unset, `result = None`, `error = None`. -/
def InflightEntry.init (α : Type) : InflightEntry α :=
  { eventSet := false, result := none, error := none }

/-- One lock-guarded check-in of `dedup_fetch` (lines 59–68): given whether
the key is already in `_inflight`, return the new in-flight status and
whether this caller became the owner. -/
def checkInStep (inflight : Bool) : Bool × Bool :=
  if inflight then (true, false) else (true, true)

/-- Serialised check-ins of `n` concurrent callers for one key: the list of
`is_owner` flags they receive, in lock-acquisition order. -/
def checkInRoles : Nat → Bool → List Bool
  | 0, _ => []
  | Nat.succ n, inflight =>
    let p := checkInStep inflight
    p.2 :: checkInRoles n p.1

/-- Roles of `n` concurrent callers starting from an empty registry. -/
def dedupRoles (n : Nat) : List Bool := checkInRoles n false

/-- The owner's body (lines 70–78): run `fetch_fn`, store the result or the
exception into the entry, and set the completion event (the `finally`). -/
def ownerRecord (fn : FetchOutcome α) (e : InflightEntry α) : InflightEntry α :=
  match fn with
  | .ok v => { e with result := some v, eventSet := true }
  | .raise i => { e with error := some i, eventSet := true }

/-- What a `dedup_fetch` call does for its caller: return `entry.result`
(possibly `None`) or raise `entry.error`. -/
inductive CallResult (α : Type) where
  | returned : Option α → CallResult α
  | raised : Nat → CallResult α
deriving DecidableEq, Repr

/-- The shared epilogue of `dedup_fetch` (lines 84–86): if `entry.error` is
set, raise it; otherwise return `entry.result`. -/
def readEntry (e : InflightEntry α) : CallResult α :=
  match e.error with
  | some i => .raised i
  | none => .returned e.result

/-- The state of the shared entry a waiter observes after
`entry.event.wait(timeout=120)` (line 82): the owner-completed entry when
the event was signalled in time, the untouched initial entry when the wait
timed out with the owner still running.  The boolean return of `wait` is
ignored by the code, which proceeds to the epilogue either way. -/
def waiterWait (signaled : Bool) (finalEntry : InflightEntry α) : InflightEntry α :=
  if signaled then finalEntry else InflightEntry.init α

/-- Outcome of the owner's `dedup_fetch` call. -/
def ownerCall (fn : FetchOutcome α) : CallResult α :=
  readEntry (ownerRecord fn (InflightEntry.init α))

/-- Outcome of a waiter's `dedup_fetch` call given whether its wait was
signalled before the 120 s timeout. -/
def waiterCall (signaled : Bool) (fn : FetchOutcome α) : CallResult α :=
  readEntry (waiterWait signaled (ownerRecord fn (InflightEntry.init α)))

/-- The outcome `dedup_fetch` is meant to deliver for `fetch_fn`:
its returned value, or the very exception object it raised. -/
def dedupOutcome (fn : FetchOutcome α) : CallResult α :=
  match fn with
  | .ok v => .returned (some v)
  | .raise i => .raised i

/-! ## fallback.py — multi-source orchestrator -/

/-- `WikiSection` of `parser.py`: one extracted section. -/
inductive WikiSection where
  | mk : (title : String) → (level : Nat) → (content : String) →
      (children : List WikiSection) → WikiSection
deriving Repr

/-- Projection to the `children` field of a `WikiSection`. -/
def WikiSection.childrenOf : WikiSection → List WikiSection
  | .mk _ _ _ cs => cs

/-- `WikiPage` of `parser.py`, restricted to the fields the orchestrator
reads (`sections`, `raw_text`) plus identification fields. -/
structure WikiPage where
  repo_name : String
  url : String
  title : String
  sections : List WikiSection
  raw_text : String
deriving Repr

/-- Python `str.lower()` on the ASCII range (all indicator strings are
effectively ASCII-cased). -/
def pyLower (s : String) : String := String.mk (s.toList.map Char.toLower)

/-- Does the character list `hay` start with `needle`? -/
def charsStartWith : List Char → List Char → Bool
  | [], _ => true
  | _ :: _, [] => false
  | a :: as, b :: bs => a == b && charsStartWith as bs

/-- Python's substring containment `needle in hay` on character lists. -/
def charsContain (needle : List Char) : List Char → Bool
  | [] => needle.isEmpty
  | c :: rest => charsStartWith needle (c :: rest) || charsContain needle rest

/-- Python's `needle in hay` for strings. -/
def pyInStr (needle hay : String) : Bool := charsContain needle.toList hay.toList

/-- `config.NOT_INDEXED_INDICATORS`: strings marking a 404 / not-indexed
TinkyWiki page. -/
def NOT_INDEXED_INDICATORS : List String :=
  ["This page doesn’t exist", "This page doesn't exist", "404"]

/-- `fallback._is_not_indexed_error(page)`: `True` for `None`, for a page
with no sections and no raw text, or when a known indicator occurs in the
lowercased raw text. -/
def isNotIndexedError : Option WikiPage → Bool
  | none => true
  | some page =>
    if page.sections.isEmpty && page.raw_text.isEmpty then true
    else NOT_INDEXED_INDICATORS.any fun ind => pyInStr (pyLower ind) (pyLower page.raw_text)

def SOURCE_CODEWIKI : String := "tinkywiki"
def SOURCE_DEEPWIKI : String := "deepwiki"
def SOURCE_GITHUB_API : String := "github_api"

/-- `fallback.FallbackResult`. -/
structure FallbackResult where
  page : Option WikiPage
  source : String
  tinkywiki_not_indexed : Bool
  deepwiki_not_indexed : Bool
deriving Repr

/-- `fallback.SearchFallbackResult`. -/
structure SearchFallbackResult where
  response : Option String
  source : String
  tinkywiki_not_indexed : Bool
  deepwiki_not_indexed : Bool
deriving Repr

/-- The `config` flags the orchestrator consults. -/
structure Config where
  fallbackEnabled : Bool
  deepwikiEnabled : Bool
  githubApiEnabled : Bool
deriving Repr

/-- Behaviour of the three underlying page fetchers for one request:
each either returns a page / `None` or raises an exception object. -/
structure PageBehavior where
  tinkywiki : Except Nat (Option WikiPage)
  deepwiki : Except Nat (Option WikiPage)
  githubApi : Except Nat (Option WikiPage)

/-- `fallback._try_tinkywiki`: the dedup-wrapped fetch, with every
exception caught and converted to a `page=None` result. -/
def tryTinkywiki (b : PageBehavior) : FallbackResult :=
  match b.tinkywiki with
  | .ok page => ⟨page, SOURCE_CODEWIKI, false, false⟩
  | .error _ => ⟨none, SOURCE_CODEWIKI, false, false⟩

/-- `fallback._try_deepwiki`: `None` result is tagged
`deepwiki_not_indexed=True`; any exception is caught. -/
def tryDeepwiki (b : PageBehavior) : FallbackResult :=
  match b.deepwiki with
  | .ok (some p) => ⟨some p, SOURCE_DEEPWIKI, false, false⟩
  | .ok none => ⟨none, SOURCE_DEEPWIKI, false, true⟩
  | .error _ => ⟨none, SOURCE_DEEPWIKI, false, false⟩

/-- `fallback._try_github_api`: any exception is caught. -/
def tryGithubApi (b : PageBehavior) : FallbackResult :=
  match b.githubApi with
  | .ok (some p) => ⟨some p, SOURCE_GITHUB_API, false, false⟩
  | .ok none => ⟨none, SOURCE_GITHUB_API, false, false⟩
  | .error _ => ⟨none, SOURCE_GITHUB_API, false, false⟩

/-- `fallback.fetch_page_with_fallback` (lines 86–129).  The
fire-and-forget indexing request of line 104 runs on a detached daemon
thread and never affects the returned value, so it has no footprint here.
The function is total in the fetchers' behaviours: every source exception
is absorbed by its `_try_*` wrapper. -/
def fetchPageWithFallback (cfg : Config) (b : PageBehavior) : FallbackResult :=
  if cfg.fallbackEnabled = false then tryTinkywiki b
  else
    let result := tryTinkywiki b
    if result.page.isSome && !isNotIndexedError result.page then result
    else
      let tink := !result.page.isSome || isNotIndexedError result.page
      let afterDeep : Option FallbackResult :=
        if cfg.deepwikiEnabled then
          let r2 := tryDeepwiki b
          let r2 := { r2 with tinkywiki_not_indexed := tink }
          if r2.page.isSome then some r2 else none
        else none
      match afterDeep with
      | some r => r
      | none =>
        let afterGh : Option FallbackResult :=
          if cfg.githubApiEnabled then
            let r3 := tryGithubApi b
            let r3 := { r3 with tinkywiki_not_indexed := tink, deepwiki_not_indexed := true }
            if r3.page.isSome then some r3 else none
          else none
        match afterGh with
        | some r => r
        | none => ⟨none, SOURCE_CODEWIKI, tink, true⟩

/-- `types.ResponseStatus`. -/
inductive ResponseStatus where
  | ok
  | error
  | partialStatus
deriving DecidableEq, Repr

/-- `types.ErrorCode`. -/
inductive ErrorCode where
  | VALIDATION
  | TIMEOUT
  | DRIVER_ERROR
  | NO_CONTENT
  | NOT_INDEXED
  | INPUT_NOT_FOUND
  | INTERNAL
  | RETRY_EXHAUSTED
  | RATE_LIMITED
deriving DecidableEq, Repr

/-- `types.ToolResponse`, restricted to the fields `search_with_fallback`
reads. -/
structure ToolResponse where
  status : ResponseStatus
  code : Option ErrorCode
  data : Option String
deriving DecidableEq, Repr

/-- Python truthiness of an optional string (`None` and `""` are falsy). -/
def pyTruthyStr : Option String → Bool
  | none => false
  | some s => !s.isEmpty

/-- Behaviour of the three search backends for one request.
`tinkywikiSearchFn = none` models passing `tinkywiki_search_fn=None`. -/
structure SearchBehavior where
  tinkywikiSearchFn : Option (Except Nat ToolResponse)
  deepwikiAsk : Except Nat (Option String)
  githubSearchAnswer : Except Nat (Option String)

/-- Layers 2 and 3 of `fallback.search_with_fallback` (lines 236–271):
DeepWiki Ask then GitHub search, each inside its own `try/except`. -/
def searchLayer23 (cfg : Config) (b : SearchBehavior) (tink : Bool) :
    SearchFallbackResult :=
  let afterDeep : Option SearchFallbackResult :=
    if cfg.deepwikiEnabled && cfg.fallbackEnabled then
      match b.deepwikiAsk with
      | .ok resp => if pyTruthyStr resp then some ⟨resp, SOURCE_DEEPWIKI, tink, false⟩ else none
      | .error _ => none
    else none
  match afterDeep with
  | some r => r
  | none =>
    let afterGh : Option SearchFallbackResult :=
      if cfg.githubApiEnabled && cfg.fallbackEnabled then
        match b.githubSearchAnswer with
        | .ok resp => if pyTruthyStr resp then some ⟨resp, SOURCE_GITHUB_API, tink, true⟩ else none
        | .error _ => none
      else none
    match afterGh with
    | some r => r
    | none => ⟨none, SOURCE_CODEWIKI, tink, true⟩

/-- `fallback.search_with_fallback` (lines 199–271).  Layer 1 invokes the
supplied TinkyWiki search callable directly, with **no** surrounding
`try/except`, so an exception it raises leaves the orchestrator: the result
type is `Except`. -/
def searchWithFallback (cfg : Config) (b : SearchBehavior) :
    Except Nat SearchFallbackResult :=
  match b.tinkywikiSearchFn with
  | none => .ok (searchLayer23 cfg b false)
  | some (.error i) => .error i
  | some (.ok r) =>
    if r.status = ResponseStatus.ok ∧ pyTruthyStr r.data = true then
      .ok ⟨r.data, SOURCE_CODEWIKI, false, false⟩
    else
      let tink := r.code = some ErrorCode.NOT_INDEXED ∨ r.code = some ErrorCode.NO_CONTENT
      .ok (searchLayer23 cfg b (decide tink))

/-! ## rate_limit.py — per-key sliding window

The per-key state is the timestamp list `_windows[key]`; `time.monotonic()`
instants are modelled as rationals. -/

/-- The pruning of `check_rate_limit` lines 45–46: keep timestamps strictly
newer than `now - window`. -/
def pruneWindow (now window : ℚ) (ts : List ℚ) : List ℚ :=
  ts.filter fun t => decide (now - window < t)

/-- `rate_limit.check_rate_limit` for one key: prune, reject (recording
nothing beyond the prune) when the remaining count is at least
`max_calls`, otherwise append `now` and admit.  Returns the admission
verdict and the key's new timestamp list. -/
def check_rate_limit (window : ℚ) (max_calls : Nat) (now : ℚ) (ts : List ℚ) :
    Bool × List ℚ :=
  let pruned := pruneWindow now window ts
  if max_calls ≤ pruned.length then (false, pruned)
  else (true, pruned ++ [now])

/-- Run `check_rate_limit` for one key at each instant of `times` in order,
threading the timestamp list; returns the admission verdicts and the final
list. -/
def runRateLimit (window : ℚ) (max_calls : Nat) (ts : List ℚ) :
    List ℚ → List Bool × List ℚ
  | [] => ([], ts)
  | t :: rest =>
    let step := check_rate_limit window max_calls t ts
    let tail := runRateLimit window max_calls step.2 rest
    (step.1 :: tail.1, tail.2)

/-! ## session_pool.py — LRU pool of warm browser sessions

`_pool` is an `OrderedDict` from URL to `_PoolEntry`; the front is the
least-recently-used entry.  A pool entry's browser context and page are
identified by a session id `sid` assigned at creation; closed sessions are
logged in `closed`. -/

/-- `session_pool._PoolEntry`, with `sid` identifying the underlying
browser context + page created for it. -/
structure PoolEntry where
  url : String
  uses : Nat
  sid : Nat
deriving DecidableEq, Repr

/-- The module state of `session_pool.py`: the LRU-ordered pool (head =
least recently used), the log of entries closed by `_close_entry`, and the
next fresh session id. -/
structure PoolState where
  pool : List PoolEntry
  closed : List PoolEntry
  nextSid : Nat
deriving DecidableEq, Repr

/-- `url in _pool` / `_pool[url]` lookup. -/
def poolLookup (url : String) (pool : List PoolEntry) : Option PoolEntry :=
  pool.find? fun e => e.url == url

/-- The `while len(_pool) >= SESSION_POOL_SIZE: await _evict_oldest()` loop
of `_get_or_create` (lines 112–113): pop and close entries from the LRU
front until below capacity.  (With `cap = 0` the Python loop would never
terminate once the pool is empty; the model stops there.) -/
def evictWhileFull (cap : Nat) : List PoolEntry → List PoolEntry →
    List PoolEntry × List PoolEntry
  | [], closed => ([], closed)
  | e :: rest, closed =>
    if cap ≤ (e :: rest).length then evictWhileFull cap rest (closed ++ [e])
    else (e :: rest, closed)

/-- `session_pool._get_or_create(url)` under the pool lock.  `canCreate`
is the behaviour of `_create_entry`: `false` means navigation raised, in
which case the exception propagates (`result = none`) after any evictions
already performed. -/
def getOrCreate (cap : Nat) (canCreate : Bool) (st : PoolState) (url : String) :
    PoolState × Option PoolEntry :=
  match poolLookup url st.pool with
  | some e =>
    let e' := { e with uses := e.uses + 1 }
    ({ st with pool := (st.pool.filter fun x => x.url != url) ++ [e'] }, some e')
  | none =>
    let evicted := evictWhileFull cap st.pool st.closed
    let st' := { st with pool := evicted.1, closed := evicted.2 }
    if canCreate then
      let e : PoolEntry := { url := url, uses := 1, sid := st.nextSid }
      ({ st' with pool := evicted.1 ++ [e], nextSid := st.nextSid + 1 }, some e)
    else (st', none)

/-- `session_pool._release(url, broken)`: evict and close the entry only
when `broken` is true and the url is resident; otherwise do nothing. -/
def releaseSession (st : PoolState) (url : String) (broken : Bool) : PoolState :=
  if broken then
    match poolLookup url st.pool with
    | some e =>
      { st with pool := st.pool.filter fun x => x.url != url
                closed := st.closed ++ [e] }
    | none => st
  else st

/-! ## Concrete instances used by counterexamples and witnesses -/

/-- All sources enabled — the default configuration. -/
def cfgAll : Config := ⟨true, true, true⟩

/-- DeepWiki and GitHub API administratively disabled. -/
def cfgPrimaryOnly : Config := ⟨true, false, false⟩

/-- A legitimately indexed page: structured sections, clean raw text. -/
def goodPage : WikiPage :=
  { repo_name := "octo/widgets"
    url := "https://github.com/octo/widgets"
    title := "widgets"
    sections := [WikiSection.mk "Overview" 1 "A widget toolkit." []]
    raw_text := "Overview. A widget toolkit for terminals." }

/-- A page with structured sections whose legitimate raw text happens to
contain the bare substring `404`. -/
def c2Page : WikiPage :=
  { repo_name := "octo/httpd"
    url := "https://github.com/octo/httpd"
    title := "httpd"
    sections := [WikiSection.mk "Errors" 2 "Custom error pages." []]
    raw_text := "The server renders a custom page for each 404 response." }

/-- A page as DeepWiki would return it. -/
def deepPage : WikiPage :=
  { repo_name := "octo/widgets"
    url := "https://deepwiki.com/octo/widgets"
    title := "widgets"
    sections := [WikiSection.mk "Summary" 1 "AI-generated summary." []]
    raw_text := "AI-generated summary of the repository." }

/-! ## Theorems -/

theorem checkInRoles_inflight (n : Nat) :
    checkInRoles n true = List.replicate n false := by
  induction n with
  | zero => rfl
  | succ n ih => simp [checkInRoles, checkInStep, ih, List.replicate_succ]

theorem dedupRoles_count (n : Nat) (hn : 1 ≤ n) :
    (dedupRoles n).count true = 1 := by
  cases n with
  | zero => exact absurd hn (by decide)
  | succ m =>
    simp [dedupRoles, checkInRoles, checkInStep, checkInRoles_inflight,
      List.count_replicate]

/-- C1: among `n ≥ 1` concurrent `dedup_fetch(key, fn)` callers checking in
while the key is in flight, exactly one (the first) becomes the owner, so
`fn` executes exactly once; the owner's call delivers `fn`'s recorded
outcome, and every waiter whose wait is released by the owner's completion
signal delivers the identical recorded result, or raises the owner's exact
recorded error object. -/
theorem dedup_singleflight (α : Type) (n : Nat) (hn : 1 ≤ n)
    (fn : FetchOutcome α) :
    (dedupRoles n).count true = 1 ∧
    ownerCall fn = dedupOutcome fn ∧
    waiterCall true fn = dedupOutcome fn := by
  refine ⟨dedupRoles_count n hn, ?_, ?_⟩ <;> cases fn <;> rfl

/-- Witness for C1 at `n = 3` and `fn` returning `42`. -/
theorem dedup_singleflight_witness :
    (1 ≤ 3) ∧
    ((dedupRoles 3).count true = 1 ∧
      ownerCall (FetchOutcome.ok (42 : Nat)) = dedupOutcome (FetchOutcome.ok 42) ∧
      waiterCall true (FetchOutcome.ok (42 : Nat)) = dedupOutcome (FetchOutcome.ok 42)) :=
  ⟨by decide, dedup_singleflight Nat 3 (by decide) (FetchOutcome.ok 42)⟩

/-- C3 (code bug): when a waiter's 120 s wait elapses without the owner's
completion signal, `dedup_fetch` ignores the `Event.wait` return value and
falls through to the epilogue on the untouched entry: `entry.error` is
still `None`, so the waiter silently returns the entry's initial `None`
result — it raises nothing, whether the owner was going to raise or to
return a value.  This contradicts the claim (and the function's own
docstring, which promises to return what `fetch_fn` returned or raise what
it raised). -/
theorem dedup_waiter_timeout_returns_stale_none :
    waiterCall false (FetchOutcome.raise (α := Nat) 7) = CallResult.returned none ∧
    waiterCall false (FetchOutcome.ok (42 : Nat)) = CallResult.returned none :=
  ⟨rfl, rfl⟩

theorem tink_flag_true {r : FallbackResult}
    (h : (r.page.isSome && !isNotIndexedError r.page) = false) :
    (!r.page.isSome || isNotIndexedError r.page) = true := by
  cases hp : r.page.isSome <;> cases he : isNotIndexedError r.page <;> simp_all

theorem fetch_fallthrough_flag (cfg : Config) (b : PageBehavior)
    (hf : cfg.fallbackEnabled = true)
    (h : ((tryTinkywiki b).page.isSome && !isNotIndexedError (tryTinkywiki b).page) = false) :
    (fetchPageWithFallback cfg b).tinkywiki_not_indexed = true := by
  have htink := tink_flag_true h
  unfold fetchPageWithFallback
  rw [hf]
  cases hde : cfg.deepwikiEnabled <;> cases hge : cfg.githubApiEnabled <;>
    rcases hdw : b.deepwiki with i | _ | p2 <;>
    rcases hgh : b.githubApi with j | _ | p3 <;>
    simp_all [tryDeepwiki, tryGithubApi]
  all_goals
    rw [if_neg]
    · rcases htink with hpn | herr
      · simp [hpn]
      · simp [herr]
    · rintro ⟨h1, h2⟩
      rw [h h1] at h2
      exact absurd h2 (by simp)

/-- C2 (corrected): with fallback enabled, the orchestrator returns the
immediate provenance-A outcome `⟨some p, tinkywiki, false, false⟩` exactly
when Source A's fetch yields a non-null page that does not match the
not-found heuristic; but the heuristic classifies a page as not-found when
the page is null, when it has no sections AND empty raw text, or when its
lowercased raw text contains a known negative-result phrase — the phrase
test applies regardless of structured content. -/
theorem fetch_provenance_A (cfg : Config) (b : PageBehavior)
    (hf : cfg.fallbackEnabled = true) :
    (∀ p : WikiPage,
      (fetchPageWithFallback cfg b =
        { page := some p, source := SOURCE_CODEWIKI,
          tinkywiki_not_indexed := false, deepwiki_not_indexed := false }) ↔
        (b.tinkywiki = Except.ok (some p) ∧ isNotIndexedError (some p) = false)) ∧
    (∀ q : WikiPage,
      isNotIndexedError (some q) = true ↔
        ((q.sections = [] ∧ q.raw_text = "") ∨
          ∃ ind ∈ NOT_INDEXED_INDICATORS,
            pyInStr (pyLower ind) (pyLower q.raw_text) = true)) := by
  constructor
  · intro p
    constructor
    · intro hres
      by_cases hg : ((tryTinkywiki b).page.isSome &&
          !isNotIndexedError (tryTinkywiki b).page) = true
      · have hfe : fetchPageWithFallback cfg b = tryTinkywiki b := by
          unfold fetchPageWithFallback
          rw [hf]
          simp [hg]
        rw [hfe] at hres
        rcases htw : b.tinkywiki with i | pg
        · rw [tryTinkywiki, htw] at hres
          simp at hres
        · rw [tryTinkywiki, htw] at hres
          have hpg : pg = some p := congrArg FallbackResult.page hres

          subst hpg
          rw [tryTinkywiki, htw] at hg
          simp at hg
          exact ⟨rfl, hg⟩
      · rw [Bool.not_eq_true] at hg
        have hflag := fetch_fallthrough_flag cfg b hf hg
        rw [hres] at hflag
        simp at hflag
    · rintro ⟨htw, hni⟩
      unfold fetchPageWithFallback
      rw [hf]
      simp [tryTinkywiki, htw, hni]
  · intro q
    by_cases hq : (q.sections.isEmpty && q.raw_text.isEmpty) = true
    · rw [Bool.and_eq_true] at hq
      obtain ⟨h1, h2⟩ := hq
      have e1 : q.sections = [] := List.isEmpty_iff.mp h1
      have e2 : q.raw_text = "" := (String.isEmpty_iff _).mp h2
      constructor
      · intro _
        exact Or.inl ⟨e1, e2⟩
      · intro _
        simp [isNotIndexedError, h1, h2]
    · rw [Bool.not_eq_true] at hq
      have hne : ¬(q.sections = [] ∧ q.raw_text = "") := by
        rintro ⟨e1, e2⟩
        rw [e1, e2] at hq
        exact absurd hq (by decide)
      rw [isNotIndexedError, if_neg (by simp [hq])]
      rw [List.any_eq_true, or_iff_right hne]

/-- C2 counterexample: `c2Page` HAS structured sections, yet the code's
heuristic classifies it as not-found because its legitimate raw text
contains the bare indicator `404`, so the orchestrator does not return it
with provenance A — refuting the claimed "no structured content AND
negative phrase" characterization. -/
theorem notIndexed_heuristic_counterexample :
    c2Page.sections.length = 1 ∧
    isNotIndexedError (some c2Page) = true ∧
    fetchPageWithFallback cfgAll
        { tinkywiki := Except.ok (some c2Page), deepwiki := Except.ok none,
          githubApi := Except.ok none } =
      { page := none, source := SOURCE_CODEWIKI,
        tinkywiki_not_indexed := true, deepwiki_not_indexed := true } :=
  ⟨rfl, rfl, rfl⟩

/-- C4 counterexample: in `search_with_fallback` the TinkyWiki search
callable is invoked with no surrounding `try/except` (line 221), so an
exception it raises propagates to the orchestrator's caller instead of
falling through to the enabled DeepWiki and GitHub layers. -/
theorem search_primary_exception_propagates :
    searchWithFallback cfgAll
        { tinkywikiSearchFn := some (Except.error 3),
          deepwikiAsk := Except.ok (some "deepwiki answer"),
          githubSearchAnswer := Except.ok (some "github answer") } =
      Except.error 3 :=
  rfl

/-- C4 (corrected): in `fetch_page_with_fallback` every source call is
wrapped, so an exception from any source is indistinguishable from that
source returning nothing and never reaches the caller, and a primary
exception still falls through to DeepWiki; in `search_with_fallback` the
DeepWiki and GitHub calls are likewise wrapped, but the TinkyWiki search
callable is invoked without a wrapper, so an exception it raises
propagates to the caller. -/
theorem fallback_exception_handling :
    (∀ (cfg : Config) (i : Nat) (dw gh : Except Nat (Option WikiPage)),
      fetchPageWithFallback cfg ⟨Except.error i, dw, gh⟩ =
        fetchPageWithFallback cfg ⟨Except.ok none, dw, gh⟩) ∧
    (∀ (cfg : Config) (tw gh : Except Nat (Option WikiPage)) (i : Nat),
      fetchPageWithFallback cfg ⟨tw, Except.error i, gh⟩ =
        fetchPageWithFallback cfg ⟨tw, Except.ok none, gh⟩) ∧
    (∀ (cfg : Config) (tw dw : Except Nat (Option WikiPage)) (i : Nat),
      fetchPageWithFallback cfg ⟨tw, dw, Except.error i⟩ =
        fetchPageWithFallback cfg ⟨tw, dw, Except.ok none⟩) ∧
    (∀ (i : Nat) (p : WikiPage) (gh : Except Nat (Option WikiPage)),
      fetchPageWithFallback cfgAll ⟨Except.error i, Except.ok (some p), gh⟩ =
        { page := some p, source := SOURCE_DEEPWIKI,
          tinkywiki_not_indexed := true, deepwiki_not_indexed := false }) ∧
    (∀ (cfg : Config) (r : ToolResponse) (da gs : Except Nat (Option String)),
      ∃ out, searchWithFallback cfg ⟨some (Except.ok r), da, gs⟩ = Except.ok out) ∧
    (∀ (cfg : Config) (da gs : Except Nat (Option String)),
      ∃ out, searchWithFallback cfg ⟨none, da, gs⟩ = Except.ok out) ∧
    (∀ (cfg : Config) (i : Nat) (da gs : Except Nat (Option String)),
      searchWithFallback cfg ⟨some (Except.error i), da, gs⟩ = Except.error i) := by
  refine ⟨?_, ?_, ?_, ?_, ?_, ?_, ?_⟩
  · intro cfg i dw gh
    rfl
  · intro cfg tw gh i
    unfold fetchPageWithFallback tryTinkywiki tryDeepwiki tryGithubApi
    rfl
  · intro cfg tw dw i
    unfold fetchPageWithFallback tryTinkywiki tryDeepwiki tryGithubApi
    rfl
  · intro i p gh
    rfl
  · intro cfg r da gs
    by_cases h : r.status = ResponseStatus.ok ∧ pyTruthyStr r.data = true
    · exact ⟨_, by unfold searchWithFallback; dsimp only; rw [if_pos h]⟩
    · exact ⟨_, by unfold searchWithFallback; dsimp only; rw [if_neg h]⟩
  · intro cfg da gs
    exact ⟨_, rfl⟩
  · intro cfg i da gs
    rfl

/-- C5 counterexample: with DeepWiki administratively disabled (never
attempted) and everything else failing, the exhausted outcome still sets
`deepwiki_not_indexed = true` — refuting "a flag is set only for a source
that was attempted". -/
theorem exhausted_flags_counterexample :
    cfgPrimaryOnly.deepwikiEnabled = false ∧
    fetchPageWithFallback cfgPrimaryOnly
        { tinkywiki := Except.ok none, deepwiki := Except.ok none,
          githubApi := Except.ok none } =
      { page := none, source := SOURCE_CODEWIKI,
        tinkywiki_not_indexed := true, deepwiki_not_indexed := true } :=
  ⟨rfl, rfl⟩

/-- C5 (amended): when Source A fails or is not indexed and every enabled
remaining source fails, `fetch_page_with_fallback` returns `page = None`
with `tinkywiki_not_indexed = true` and `deepwiki_not_indexed = true`
unconditionally — the DeepWiki flag is set in the exhausted outcome even
when DeepWiki was skipped because it is administratively disabled. -/
theorem exhausted_outcome (cfg : Config) (b : PageBehavior)
    (hf : cfg.fallbackEnabled = true)
    (hA : ((tryTinkywiki b).page.isSome &&
      !isNotIndexedError (tryTinkywiki b).page) = false)
    (hB : cfg.deepwikiEnabled = true → (tryDeepwiki b).page = none)
    (hC : cfg.githubApiEnabled = true → (tryGithubApi b).page = none) :
    fetchPageWithFallback cfg b =
      { page := none, source := SOURCE_CODEWIKI,
        tinkywiki_not_indexed := true, deepwiki_not_indexed := true } := by
  have htink := tink_flag_true hA
  unfold fetchPageWithFallback
  rw [hf]
  cases hde : cfg.deepwikiEnabled <;> cases hge : cfg.githubApiEnabled <;>
    simp_all [tryDeepwiki, tryGithubApi]
  all_goals
    rw [if_neg]
    · rcases htink with hpn | herr
      · simp [hpn]
      · simp [herr]
    · rintro ⟨h1, h2⟩
      rw [hA h1] at h2
      exact absurd h2 (by simp)

/-- Witness for C5: TinkyWiki returns nothing, DeepWiki disabled, GitHub
enabled but empty. -/
theorem exhausted_outcome_witness :
    fetchPageWithFallback ⟨true, false, true⟩
        { tinkywiki := Except.ok none, deepwiki := Except.ok none,
          githubApi := Except.ok none } =
      { page := none, source := SOURCE_CODEWIKI,
        tinkywiki_not_indexed := true, deepwiki_not_indexed := true } :=
  exhausted_outcome ⟨true, false, true⟩
    { tinkywiki := Except.ok none, deepwiki := Except.ok none,
      githubApi := Except.ok none }
    rfl rfl (fun h => by simp at h) (fun _ => rfl)

/-- C8: Source A not indexed, DeepWiki enabled and returning content —
the outcome has provenance DeepWiki, the TinkyWiki flag carried over as
true and the DeepWiki flag false. -/
theorem deepwiki_provenance (cfg : Config) (b : PageBehavior) (p : WikiPage)
    (hf : cfg.fallbackEnabled = true) (hd : cfg.deepwikiEnabled = true)
    (ha : isNotIndexedError (tryTinkywiki b).page = true)
    (hb : b.deepwiki = Except.ok (some p)) :
    fetchPageWithFallback cfg b =
      { page := some p, source := SOURCE_DEEPWIKI,
        tinkywiki_not_indexed := true, deepwiki_not_indexed := false } := by
  unfold fetchPageWithFallback
  rw [hf]
  simp [tryDeepwiki, hb, hd, ha]

/-- Witness for C8: TinkyWiki serves its 404 page, DeepWiki has the
content. -/
theorem deepwiki_provenance_witness :
    fetchPageWithFallback cfgAll
        { tinkywiki := Except.ok none, deepwiki := Except.ok (some deepPage),
          githubApi := Except.ok none } =
      { page := some deepPage, source := SOURCE_DEEPWIKI,
        tinkywiki_not_indexed := true, deepwiki_not_indexed := false } :=
  deepwiki_provenance cfgAll
    { tinkywiki := Except.ok none, deepwiki := Except.ok (some deepPage),
      githubApi := Except.ok none }
    deepPage rfl rfl rfl rfl

/-- Witness for C2 at the default configuration and a cleanly indexed
page. -/
theorem fetch_provenance_A_witness :
    cfgAll.fallbackEnabled = true ∧
    fetchPageWithFallback cfgAll
        { tinkywiki := Except.ok (some goodPage), deepwiki := Except.ok none,
          githubApi := Except.ok none } =
      { page := some goodPage, source := SOURCE_CODEWIKI,
        tinkywiki_not_indexed := false, deepwiki_not_indexed := false } :=
  ⟨rfl, ((fetch_provenance_A cfgAll
      { tinkywiki := Except.ok (some goodPage), deepwiki := Except.ok none,
        githubApi := Except.ok none } rfl).1 goodPage).mpr ⟨rfl, rfl⟩⟩

theorem pruneWindow_eq_self (now w : ℚ) (ts : List ℚ)
    (h : ∀ t ∈ ts, now - w < t) : pruneWindow now w ts = ts := by
  rw [pruneWindow, List.filter_eq_self]
  intro a ha
  exact decide_eq_true (h a ha)

theorem runRateLimit_admit_all (w : ℚ) (m : Nat) :
    ∀ (times base : List ℚ),
      base.length + times.length ≤ m →
      (∀ t ∈ base, ∀ u ∈ times, u - w < t) →
      times.Pairwise (fun a b => b - w < a) →
      runRateLimit w m base times = (List.replicate times.length true, base ++ times) := by
  intro times
  induction times with
  | nil =>
    intro base _ _ _
    simp [runRateLimit]
  | cons t rest ih =>
    intro base hlen hact hpair
    have hprune : pruneWindow t w base = base := by
      refine pruneWindow_eq_self t w base fun x hx => ?_
      exact hact x hx t (List.mem_cons_self t rest)
    have hlt : base.length < m := by
      have : base.length + (rest.length + 1) ≤ m := by
        simpa [List.length_cons] using hlen
      omega
    have hstep : check_rate_limit w m t base = (true, base ++ [t]) := by
      rw [check_rate_limit]
      simp only [hprune]
      rw [if_neg (by omega)]
    have hact' : ∀ x ∈ base ++ [t], ∀ u ∈ rest, u - w < x := by
      intro x hx u hu
      rcases List.mem_append.mp hx with hx | hx
      · exact hact x hx u (List.mem_cons_of_mem t hu)
      · rw [List.mem_singleton.mp hx]
        exact (List.pairwise_cons.mp hpair).1 u hu
    have hlen' : (base ++ [t]).length + rest.length ≤ m := by
      have h0 : base.length + (rest.length + 1) ≤ m := by
        simpa [List.length_cons] using hlen
      simp only [List.length_append, List.length_singleton]
      omega
    have hrec := ih (base ++ [t]) hlen' hact' (List.pairwise_cons.mp hpair).2
    rw [runRateLimit]
    simp only [hstep, hrec, List.replicate_succ, List.append_assoc,
      List.singleton_append, List.length_cons]

theorem runRateLimit_append (w : ℚ) (m : Nat) (l1 l2 base : List ℚ) :
    runRateLimit w m base (l1 ++ l2) =
      ((runRateLimit w m base l1).1 ++
          (runRateLimit w m (runRateLimit w m base l1).2 l2).1,
        (runRateLimit w m (runRateLimit w m base l1).2 l2).2) := by
  induction l1 generalizing base with
  | nil => simp [runRateLimit]
  | cons t rest ih =>
    simp only [List.cons_append, runRateLimit, List.append_eq, ih]

/-- C6: `check_rate_limit` first prunes timestamps outside the window,
rejects — recording nothing beyond the prune — exactly when the remaining
count has reached `max_calls`, and otherwise appends the current instant
and admits.  Consequently with `max = 10` and eleven calls all inside one
window, calls 1–10 are admitted, call 11 is rejected, and a later call
after the window has elapsed is admitted again. -/
theorem rate_limit_sliding_window :
    (∀ (w now : ℚ) (m : Nat) (ts : List ℚ),
      ((check_rate_limit w m now ts).1 = false ↔
        m ≤ (pruneWindow now w ts).length) ∧
      ((check_rate_limit w m now ts).1 = false →
        (check_rate_limit w m now ts).2 = pruneWindow now w ts) ∧
      ((check_rate_limit w m now ts).1 = true →
        (check_rate_limit w m now ts).2 = pruneWindow now w ts ++ [now])) ∧
    (∀ (w T t11 : ℚ) (times : List ℚ),
      times.length = 10 →
      (times ++ [t11]).Pairwise (fun a b => b - w < a) →
      (∀ t ∈ times, t + w < T) →
      (runRateLimit w 10 [] (times ++ [t11])).1 =
        List.replicate 10 true ++ [false] ∧
      (check_rate_limit w 10 T (runRateLimit w 10 [] (times ++ [t11])).2).1 = true) := by
  constructor
  · intro w now m ts
    refine ⟨?_, ?_, ?_⟩
    · rw [check_rate_limit]
      by_cases h : m ≤ (pruneWindow now w ts).length
      · simp [h]
      · simp [h]
    · intro hfalse
      rw [check_rate_limit] at hfalse ⊢
      by_cases h : m ≤ (pruneWindow now w ts).length
      · simp [h]
      · simp [h] at hfalse
    · intro htrue
      rw [check_rate_limit] at htrue ⊢
      by_cases h : m ≤ (pruneWindow now w ts).length
      · simp [h] at htrue
      · simp [h]
  · intro w T t11 times hlen hpair hT
    obtain ⟨hp1, hp2, hp3⟩ := List.pairwise_append.mp hpair
    have hfirst : runRateLimit w 10 [] times = (List.replicate 10 true, times) := by
      have := runRateLimit_admit_all w 10 times [] (by simp [hlen]) (by simp) hp1
      simpa [hlen] using this
    have hprune11 : pruneWindow t11 w times = times := by
      refine pruneWindow_eq_self t11 w times fun x hx => ?_
      exact hp3 x hx t11 (List.mem_singleton_self t11)
    have hstep11 : check_rate_limit w 10 t11 times = (false, times) := by
      rw [check_rate_limit]
      simp only [hprune11]
      rw [if_pos (by omega)]
    have hrun : runRateLimit w 10 [] (times ++ [t11]) =
        (List.replicate 10 true ++ [false], times) := by
      rw [runRateLimit_append, hfirst]
      simp [runRateLimit, hstep11]
    refine ⟨by rw [hrun], ?_⟩
    have hpruneT : pruneWindow T w times = [] := by
      rw [pruneWindow, List.filter_eq_nil_iff]
      intro a ha
      have := hT a ha
      simp only [decide_eq_true_eq]
      intro hcon
      linarith
    rw [hrun]
    rw [check_rate_limit]
    simp only [hpruneT]
    rw [if_neg (by simp)]

/-- Witness for C6 at `window = 60`, eleven calls at seconds 1…11 and a
later call at second 72. -/
theorem rate_limit_sliding_window_witness :
    (([1, 2, 3, 4, 5, 6, 7, 8, 9, 10] : List ℚ).length = 10) ∧
    ((([1, 2, 3, 4, 5, 6, 7, 8, 9, 10] : List ℚ) ++ [11]).Pairwise
      fun a b => b - 60 < a) ∧
    ((runRateLimit 60 10 []
        (([1, 2, 3, 4, 5, 6, 7, 8, 9, 10] : List ℚ) ++ [11])).1 =
      List.replicate 10 true ++ [false] ∧
    (check_rate_limit 60 10 72
        (runRateLimit 60 10 []
          (([1, 2, 3, 4, 5, 6, 7, 8, 9, 10] : List ℚ) ++ [11])).2).1 = true) :=
  ⟨by decide, by norm_num [List.pairwise_append, List.pairwise_cons],
    rate_limit_sliding_window.2 60 72 11 [1, 2, 3, 4, 5, 6, 7, 8, 9, 10]
      (by decide) (by norm_num [List.pairwise_append, List.pairwise_cons])
      (by norm_num)⟩

/-- C7: `_get_or_create` on a resident key returns that very entry with its
use counter incremented and its LRU position refreshed to
most-recently-used (end of the pool order), closing nothing; two calls on
a fresh pool take the counter from 1 to 2; and on a non-resident key with
capacity 1 the resident entry is closed and removed before the new entry
is inserted with use counter 1, leaving only the new key in the pool. -/
theorem session_pool_lru :
    (∀ (cap : Nat) (cc : Bool) (st : PoolState) (url : String) (e : PoolEntry),
      poolLookup url st.pool = some e →
        getOrCreate cap cc st url =
          ({ st with pool := (st.pool.filter fun x => x.url != url) ++
              [{ e with uses := e.uses + 1 }] },
            some { e with uses := e.uses + 1 })) ∧
    (∀ (cap : Nat) (u : String), 1 ≤ cap →
      (getOrCreate cap true ⟨[], [], 0⟩ u).2 = some ⟨u, 1, 0⟩ ∧
      (getOrCreate cap true (getOrCreate cap true ⟨[], [], 0⟩ u).1 u).2 =
        some ⟨u, 2, 0⟩) ∧
    (∀ (st : PoolState) (e1 : PoolEntry) (u2 : String),
      st.pool = [e1] → (e1.url == u2) = false →
      getOrCreate 1 true st u2 =
        (⟨[⟨u2, 1, st.nextSid⟩], st.closed ++ [e1], st.nextSid + 1⟩,
          some ⟨u2, 1, st.nextSid⟩)) := by
  refine ⟨?_, ?_, ?_⟩
  · intro cap cc st url e h
    unfold getOrCreate
    rw [h]
  · intro cap u hcap
    constructor
    · rfl
    · have hfind : poolLookup u [({ url := u, uses := 1, sid := 0 } : PoolEntry)] =
          some { url := u, uses := 1, sid := 0 } := by
        simp [poolLookup]
      show (getOrCreate cap true ⟨[{ url := u, uses := 1, sid := 0 }], [], 1⟩ u).2 =
        some ⟨u, 2, 0⟩
      unfold getOrCreate
      rw [hfind]
  · intro st e1 u2 hpool hne
    have hlook : poolLookup u2 st.pool = none := by
      rw [hpool]
      simp [poolLookup, hne]
    unfold getOrCreate
    rw [hlook, hpool]
    rfl

/-- Witness for C7: a pool holding `u1`, reused once, then evicted by
`u2` under capacity 1. -/
theorem session_pool_lru_witness :
    getOrCreate 2 true ⟨[{ url := "u1", uses := 1, sid := 0 }], [], 1⟩ "u1" =
      (⟨[{ url := "u1", uses := 2, sid := 0 }], [], 1⟩,
        some { url := "u1", uses := 2, sid := 0 }) ∧
    ((getOrCreate 1 true ⟨[], [], 0⟩ "u1").2 = some ⟨"u1", 1, 0⟩ ∧
      (getOrCreate 1 true (getOrCreate 1 true ⟨[], [], 0⟩ "u1").1 "u1").2 =
        some ⟨"u1", 2, 0⟩) ∧
    getOrCreate 1 true ⟨[{ url := "u1", uses := 1, sid := 0 }], [], 1⟩ "u2" =
      (⟨[⟨"u2", 1, 1⟩], [{ url := "u1", uses := 1, sid := 0 }], 2⟩,
        some ⟨"u2", 1, 1⟩) := by
  refine ⟨?_, ?_, ?_⟩
  · exact (session_pool_lru.1 2 true ⟨[{ url := "u1", uses := 1, sid := 0 }], [], 1⟩
      "u1" { url := "u1", uses := 1, sid := 0 } (by decide)).trans (by decide)
  · exact session_pool_lru.2.1 1 "u1" (by decide)
  · exact (session_pool_lru.2.2 ⟨[{ url := "u1", uses := 1, sid := 0 }], [], 1⟩
      { url := "u1", uses := 1, sid := 0 } "u2" rfl (by decide)).trans (by decide)

theorem evictWhileFull_stop (cap : Nat) (l closed : List PoolEntry)
    (h : l.length < cap) : evictWhileFull cap l closed = (l, closed) := by
  cases l with
  | nil => rfl
  | cons e rest =>
    rw [evictWhileFull, if_neg (Nat.not_le.mpr h)]

/-- C9: for a non-resident key with the pool at capacity and the session
creation failing, the LRU entry has already been evicted and closed when
the failure propagates: the call yields no entry, inserts nothing for the
requested key, does not restore the evicted entry, and leaves the pool one
entry smaller — the operation is not atomic on error. -/
theorem session_pool_eviction_not_atomic (cap : Nat) (st : PoolState)
    (url : String) (e : PoolEntry) (rest : List PoolEntry)
    (hpool : st.pool = e :: rest)
    (hlen : st.pool.length = cap)
    (hmiss : poolLookup url st.pool = none) :
    getOrCreate cap false st url =
      ({ st with pool := rest, closed := st.closed ++ [e] }, none) ∧
    rest.length = cap - 1 ∧
    poolLookup url rest = none := by
  have hc1 : rest.length + 1 = cap := by
    rw [hpool] at hlen
    simpa using hlen
  have hevict : evictWhileFull cap (e :: rest) st.closed =
      (rest, st.closed ++ [e]) := by
    rw [evictWhileFull, if_pos (by simp; omega)]
    exact evictWhileFull_stop cap rest _ (by omega)
  refine ⟨?_, by omega, ?_⟩
  · unfold getOrCreate
    rw [hmiss, hpool, hevict]
    rfl
  · rw [poolLookup, List.find?_eq_none]
    intro x hx
    rw [poolLookup] at hmiss
    exact List.find?_eq_none.mp hmiss x (hpool ▸ List.mem_cons_of_mem e hx)

/-- Witness for C9: a full pool of two entries, a miss on `u3`, creation
failing. -/
theorem session_pool_eviction_not_atomic_witness :
    getOrCreate 2 false
        ⟨[{ url := "u1", uses := 1, sid := 0 }, { url := "u2", uses := 3, sid := 1 }],
          [], 2⟩ "u3" =
      (⟨[{ url := "u2", uses := 3, sid := 1 }], [{ url := "u1", uses := 1, sid := 0 }], 2⟩,
        none) ∧
    ([({ url := "u2", uses := 3, sid := 1 } : PoolEntry)]).length = 2 - 1 ∧
    poolLookup "u3" [{ url := "u2", uses := 3, sid := 1 }] = none :=
  session_pool_eviction_not_atomic 2
    ⟨[{ url := "u1", uses := 1, sid := 0 }, { url := "u2", uses := 3, sid := 1 }], [], 2⟩
    "u3" { url := "u1", uses := 1, sid := 0 } [{ url := "u2", uses := 3, sid := 1 }]
    rfl rfl (by decide)

/-- C10: `_release(url, broken=False)` is a no-op for every url and every
pool state — the pool map, use counters, LRU order and closed-session log
are all unchanged; any call that changes the state must have
`broken=True`. -/
theorem release_not_broken_noop :
    (∀ (st : PoolState) (url : String), releaseSession st url false = st) ∧
    (∀ (st : PoolState) (url : String) (broken : Bool),
      releaseSession st url broken = st ∨ broken = true) := by
  constructor
  · intro st url
    rfl
  · intro st url broken
    cases broken
    · exact Or.inl rfl
    · exact Or.inr rfl

end TinkyWiki
